import Mathlib

/-!
Shallow embedding of the health-data normalization and status-aggregation
engine of the hpilo exporter (source files: hpilo_collector/sensors.py,
hpilo_collector/metrics.py, hpilo_collector/collector.py).

Raw telemetry sub-records are modelled as Lean structures whose fields are
the constructor keyword arguments of the corresponding Python sensor class;
optional arguments become Option fields.  Sensor objects are structures whose
fields are the entries of the promData dictionary; the computed promData
entries and the value attribute are modelled as Lean functions of the
structure.  The prometheus registry is modelled per gauge as the list of
emitted (labels, value) series.
-/

/-- Decimal value of one digit character, none for a non-digit. -/
def digitVal? (c : Char) : Option Nat :=
  if c.isDigit then some (c.toNat - 48) else none

/-- Numeric value of a non-empty all-digit character list, none otherwise. -/
def digitsToNat? (cs : List Char) : Option Nat :=
  if cs.isEmpty then none
  else cs.foldl
    (fun acc c =>
      match acc, digitVal? c with
      | some n, some d => some (n * 10 + d)
      | _, _ => none) (some 0)

/-- Models Python int(s) on a decimal string: an optional minus sign followed
by at least one digit parses, anything else raises ValueError (here: none). -/
def pyInt? (s : String) : Option Int :=
  match s.data with
  | '-' :: rest => (digitsToNat? rest).map (fun n => -(n : Int))
  | cs => (digitsToNat? cs).map (fun n => (n : Int))

/-- sensors.py line 37: Sensor.missingStatus. -/
def Sensor.missingStatus : List String := ["Not Installed", "Not Present"]

/-- sensors.py line 38: Sensor.goodStatus, the baseline healthy vocabulary
shared by every sensor class that does not override it. -/
def Sensor.goodStatus : List String := ["OK", "Good, In Use", "Present, Unused"]

/-- sensors.py lines 47-55: the healthy property of the generic Sensor,
as a function of the status string and the goodStatus list in scope. -/
def Sensor.healthyStatus (good : List String) (status : String) : Bool :=
  if good.contains status then true else false

/-- sensors.py lines 57-65: the installed property of the generic Sensor. -/
def Sensor.installedStatus (status : String) : Bool :=
  if Sensor.missingStatus.contains status then false else true

/-! ## Disk sensors (sensors.py lines 411-434) -/

/-- sensors.py line 418: DiskSensor.goodStatus, which extends the baseline
vocabulary with the vendor false-positive authentication status. -/
def DiskSensor.goodStatus : List String :=
  ["OK", "Good, In Use", "Present, Unused", "Degraded (Not authenticated)"]

/-- promData of a DiskSensor (sensors.py lines 422-430). -/
structure DiskSensor where
  capacity : String
  media_type : String
  serial_number : String
  model : String
  fw_version : String
  location : String
  status : String
  logical_drive : String
deriving Repr, DecidableEq

/-- Keyword arguments of DiskSensor.__init__ other than the injected
logical_drive (sensors.py line 421). -/
structure RawPhysicalDrive where
  capacity : String
  drive_configuration : String
  encryption_status : String
  fw_version : String
  label : String
  location : String
  marketing_capacity : String
  media_type : String
  model : String
  serial_number : String
  status : String
deriving Repr, DecidableEq

/-- DiskSensor.__init__ (sensors.py lines 421-434); the logical_drive label is
injected by the owning logical drive before construction. -/
def mkDiskSensor (r : RawPhysicalDrive) (logical_drive : String) : DiskSensor :=
  { capacity := r.capacity, media_type := r.media_type,
    serial_number := r.serial_number, model := r.model,
    fw_version := r.fw_version, location := r.location,
    status := r.status, logical_drive := logical_drive }

/-- DiskSensor inherits the generic healthy property but with its own
goodStatus list (sensors.py lines 47-55 and 418). -/
def DiskSensor.healthy (d : DiskSensor) : Bool :=
  Sensor.healthyStatus DiskSensor.goodStatus d.status

/-- sensors.py lines 432-434: the value attribute set in DiskSensor.__init__. -/
def DiskSensor.value (d : DiskSensor) : Nat :=
  if d.healthy then 1 else 0

/-! ## Logical drive sensors (sensors.py lines 343-386) -/

/-- promData of a LogicalDriveSensor plus its owned disks
(sensors.py lines 353-364). -/
structure LogicalDriveSensor where
  capacity : String
  encryption_status : String
  fault_tolerance : String
  identifier : String
  drive_type : String
  status : String
  disks : List DiskSensor
deriving Repr, DecidableEq

/-- Keyword arguments of LogicalDriveSensor.__init__ (sensors.py line 352). -/
structure RawLogicalDrive where
  capacity : String
  encryption_status : String
  fault_tolerance : String
  label : String
  logical_drive_type : String
  physical_drives : List RawPhysicalDrive
  status : String
deriving Repr, DecidableEq

/-- LogicalDriveSensor.__init__ (sensors.py lines 352-364): each physical
drive record is tagged with the identifier label and converted to a disk. -/
def mkLogicalDriveSensor (r : RawLogicalDrive) : LogicalDriveSensor :=
  { capacity := r.capacity, encryption_status := r.encryption_status,
    fault_tolerance := r.fault_tolerance, identifier := r.label,
    drive_type := r.logical_drive_type, status := r.status,
    disks := r.physical_drives.map (fun drive => mkDiskSensor drive r.label) }

/-- LogicalDriveSensor.healthy (sensors.py lines 370-386): true if the own
status is in the baseline goodStatus; otherwise true iff every owned disk is
individually healthy. -/
def LogicalDriveSensor.healthy (ld : LogicalDriveSensor) : Bool :=
  if Sensor.goodStatus.contains ld.status then true
  else ld.disks.all (fun drive => drive.healthy)

/-- sensors.py lines 366-368: the value attribute set in
LogicalDriveSensor.__init__. -/
def LogicalDriveSensor.value (ld : LogicalDriveSensor) : Nat :=
  if ld.healthy then 1 else 0

/-! ## Storage enclosure sensors (sensors.py lines 389-408) -/

/-- promData of a StorageEnclosureSensor (sensors.py lines 399-404); the label
constructor argument is not stored. -/
structure StorageEnclosureSensor where
  drive_bay : String
  model_number : String
  serial_number : String
  fw_version : String
  status : String
deriving Repr, DecidableEq

/-- Keyword arguments of StorageEnclosureSensor.__init__ (sensors.py
line 398); the last three default to the sentinel N/A when absent. -/
structure RawEnclosure where
  drive_bay : String
  label : String
  status : String
  fw_version : Option String
  model_number : Option String
  serial_number : Option String
deriving Repr, DecidableEq

/-- StorageEnclosureSensor.__init__ (sensors.py lines 398-408). -/
def mkStorageEnclosureSensor (r : RawEnclosure) : StorageEnclosureSensor :=
  { drive_bay := r.drive_bay,
    model_number := r.model_number.getD "N/A",
    serial_number := r.serial_number.getD "N/A",
    fw_version := r.fw_version.getD "N/A",
    status := r.status }

/-- Enclosures use the inherited healthy property over the baseline
goodStatus (sensors.py lines 47-55). -/
def StorageEnclosureSensor.healthy (e : StorageEnclosureSensor) : Bool :=
  Sensor.healthyStatus Sensor.goodStatus e.status

/-- sensors.py lines 406-408: the value attribute of an enclosure. -/
def StorageEnclosureSensor.value (e : StorageEnclosureSensor) : Nat :=
  if e.healthy then 1 else 0

/-! ## Storage controller sensors (sensors.py lines 268-340) -/

/-- sensors.py line 278: StorageControllerSensor.goodStatus. -/
def StorageControllerSensor.goodStatus : List String :=
  ["OK", "Good, In Use", "Present, Unused", "Not Installed"]

/-- sensors.py line 279: StorageControllerSensor.cacheGoodStatus. -/
def StorageControllerSensor.cacheGoodStatus : List String :=
  ["OK", "Good, In Use", "Present, Unused", "Not Installed", "Other"]

/-- promData of a StorageControllerSensor (sensors.py lines 286-297) plus the
owned enclosures and logical drives; status holds the raw input value, which
the healthy property later overwrites before emission. -/
structure StorageControllerSensor where
  status : String
  controller_status : String
  serial_number : String
  model : String
  fw_version : String
  cache_module_status : String
  cache_module_serial_num : String
  cache_module_memory : String
  encryption_status : String
  encryption_self_test_status : String
  encryption_csp_status : String
  enclosures : List StorageEnclosureSensor
  logical_drives : List LogicalDriveSensor
deriving Repr, DecidableEq

/-- Keyword arguments of StorageControllerSensor.__init__ (sensors.py
line 285) with their defaults modelled as Option fields. -/
structure RawStorageController where
  label : String
  status : String
  controller_status : String
  serial_number : String
  model : String
  fw_version : String
  encryption_status : String
  encryption_self_test_status : String
  encryption_csp_status : String
  drive_enclosures : Option (List RawEnclosure)
  logical_drives : Option (List RawLogicalDrive)
  cache_module_status : Option String
  cache_module_serial_num : Option String
  cache_module_memory : Option String
deriving Repr, DecidableEq

/-- StorageControllerSensor.__init__ (sensors.py lines 285-311): nested
enclosure and logical-drive records are recursively converted; absent
cache-module fields take their documented defaults. -/
def mkStorageControllerSensor (r : RawStorageController) : StorageControllerSensor :=
  { status := r.status, controller_status := r.controller_status,
    serial_number := r.serial_number, model := r.model,
    fw_version := r.fw_version,
    cache_module_status := r.cache_module_status.getD "Not Installed",
    cache_module_serial_num := r.cache_module_serial_num.getD "N/A",
    cache_module_memory := r.cache_module_memory.getD "N/A",
    encryption_status := r.encryption_status,
    encryption_self_test_status := r.encryption_self_test_status,
    encryption_csp_status := r.encryption_csp_status,
    enclosures := (r.drive_enclosures.getD []).map mkStorageEnclosureSensor,
    logical_drives := (r.logical_drives.getD []).map mkLogicalDriveSensor }

/-- The status string that StorageControllerSensor.healthy writes back into
promData before answering (sensors.py lines 313-335): the cache-module,
controller and (when enabled) encryption statuses fix a base status, which
any unhealthy child enclosure or logical drive degrades. -/
def StorageControllerSensor.resolvedStatus (c : StorageControllerSensor) : String :=
  let base :=
    if StorageControllerSensor.cacheGoodStatus.contains c.cache_module_status
        && StorageControllerSensor.goodStatus.contains c.controller_status then
      if c.encryption_status ≠ "Not Enabled" then
        if StorageControllerSensor.goodStatus.contains c.encryption_status
            && StorageControllerSensor.goodStatus.contains c.encryption_self_test_status
            && StorageControllerSensor.goodStatus.contains c.encryption_csp_status then
          "OK"
        else "Degraded"
      else "OK"
    else "Degraded"
  let afterEnclosures :=
    if c.enclosures.any (fun e => !e.healthy) then "Degraded" else base
  if c.logical_drives.any (fun ld => !ld.healthy) then "Degraded" else afterEnclosures

/-- StorageControllerSensor.healthy (sensors.py lines 313-340): the resolved
status is checked against the controller goodStatus vocabulary. -/
def StorageControllerSensor.healthy (c : StorageControllerSensor) : Bool :=
  StorageControllerSensor.goodStatus.contains c.resolvedStatus

/-- sensors.py lines 309-311: the value attribute set in
StorageControllerSensor.__init__. -/
def StorageControllerSensor.value (c : StorageControllerSensor) : Nat :=
  if c.healthy then 1 else 0

/-! ## Memory sensors (sensors.py lines 237-265) -/

/-- The nested part record of MemorySensor.__init__; the constructor reads
its number entry (sensors.py line 252). -/
structure RawPart where
  number : String
deriving Repr, DecidableEq

/-- promData of a MemorySensor (sensors.py lines 249-260). -/
structure MemorySensor where
  cpu : String
  frequency : String
  part : String
  size : String
  socket : String
  status : String
  mem_type : String
  serial : String
deriving Repr, DecidableEq

/-- MemorySensor.__init__ (sensors.py lines 248-265): a missing serial record
raises TypeError on subscripting and is replaced by the sentinel N/A.  The
hp_smart_memory, minimum_voltage, ranks and technology arguments are accepted
but never stored. -/
def mkMemorySensor (cpu frequency hp_smart_memory minimum_voltage : String)
    (part : RawPart) (ranks size socket status technology mem_type : String)
    (serial : Option RawPart) : MemorySensor :=
  { cpu := cpu, frequency := frequency, part := part.number, size := size,
    socket := socket, status := status, mem_type := mem_type,
    serial := match serial with
              | some s => s.number
              | none => "N/A" }

/-- MemorySensor inherits the generic healthy property over the baseline
goodStatus, which it does not override (sensors.py lines 47-55, 237-265). -/
def MemorySensor.healthy (m : MemorySensor) : Bool :=
  Sensor.healthyStatus Sensor.goodStatus m.status

/-- sensors.py lines 263-265: the value attribute of a memory sensor. -/
def MemorySensor.value (m : MemorySensor) : Nat :=
  if m.healthy then 1 else 0

/-! ## Temperature sensors (sensors.py lines 436-481) -/

/-- Keyword arguments of TemperatureSensor.__init__ (sensors.py line 451);
caution, critical and currentreading are (value, unit) pairs. -/
structure RawTemperature where
  caution : String × String
  critical : String × String
  currentreading : String × String
  label : String
  location : String
  status : String
deriving Repr, DecidableEq

/-- promData of a TemperatureSensor plus the value attribute, which holds the
first component of currentreading (sensors.py lines 452-466). -/
structure TemperatureSensor where
  unit : String
  name : String
  status : String
  location : String
  caution : Int
  critical : Int
  value : String
deriving Repr, DecidableEq

/-- TemperatureSensor.__init__ (sensors.py lines 451-466): each threshold is
parsed with int(), a ValueError giving the sentinel -1. -/
def mkTemperatureSensor (r : RawTemperature) : TemperatureSensor :=
  { unit := r.currentreading.2, name := r.label, status := r.status,
    location := r.location,
    caution := (pyInt? r.caution.1).getD (-1),
    critical := (pyInt? r.critical.1).getD (-1),
    value := r.currentreading.1 }

/-- TemperatureSensor inherits the generic installed property. -/
def TemperatureSensor.installed (t : TemperatureSensor) : Bool :=
  Sensor.installedStatus t.status

/-- The three series TemperatureSensor.generateMetrics registers
(sensors.py lines 468-481): the detail gauge always, carrying the full label
set and the float coercion of the value attribute; the critical and caution
gauges only when the corresponding threshold is strictly positive. -/
structure TemperatureSeries where
  detail : TemperatureSensor × Option Int
  critical : Option Int
  caution : Option Int
deriving Repr, DecidableEq

/-- TemperatureSensor.generateMetrics (sensors.py lines 468-481). -/
def TemperatureSensor.generateMetrics (t : TemperatureSensor) : TemperatureSeries :=
  { detail := (t, pyInt? t.value),
    critical := if t.critical > 0 then some t.critical else none,
    caution := if t.caution > 0 then some t.caution else none }

/-! ## System sensor (sensors.py lines 76-124) -/

/-- sensors.py line 89: SystemSensor.healthy_states. -/
def SystemSensor.healthy_states : List String := ["OK", "Redundant"]

/-- The promData dictionary of a SystemSensor (sensors.py lines 92-110),
fields listed in insertion order. -/
structure SystemPromData where
  battery : String
  bios_hardware : String
  fans : String
  fan_redundancy : String
  memory : String
  power_supplies : String
  ps_redundancy : String
  processor : String
  storage : String
  temperature : String
  network : String
deriving Repr, DecidableEq

/-- The values of the promData dictionary in insertion order, as iterated by
setStatus (sensors.py line 122). -/
def SystemPromData.values (p : SystemPromData) : List String :=
  [p.battery, p.bios_hardware, p.fans, p.fan_redundancy, p.memory,
   p.power_supplies, p.ps_redundancy, p.processor, p.storage,
   p.temperature, p.network]

/-- SystemSensor.setStatus (sensors.py lines 120-124): start from 1 and
multiply by 0 at every stored status outside healthy_states and
missingStatus. -/
def SystemSensor.setStatus (p : SystemPromData) : Nat :=
  p.values.foldl
    (fun v status =>
      if !(SystemSensor.healthy_states.contains status)
          && !(Sensor.missingStatus.contains status) then v * 0 else v) 1

/-- A SystemSensor: its promData and its value attribute. -/
structure SystemSensor where
  promData : SystemPromData
  value : Nat
deriving Repr, DecidableEq

/-- A sub-record of health_at_a_glance carrying only a status
(collector input to SystemSensor.__init__). -/
structure RawStatusRecord where
  status : String
deriving Repr, DecidableEq

/-- A sub-record carrying a status and a redundancy (fans, power_supplies). -/
structure RawRedundancyRecord where
  status : String
  redundancy : String
deriving Repr, DecidableEq

/-- SystemSensor.__init__ (sensors.py lines 91-112): a missing battery record
raises TypeError on subscripting and is stored as Not Installed; a network
status of OK or Unknown is stored as OK; finally setStatus fixes the value. -/
def mkSystemSensor (bios_hardware : RawStatusRecord) (fans : RawRedundancyRecord)
    (memory : RawStatusRecord) (network : RawStatusRecord)
    (power_supplies : RawRedundancyRecord) (processor : RawStatusRecord)
    (storage : RawStatusRecord) (temperature : RawStatusRecord)
    (battery : Option RawStatusRecord) : SystemSensor :=
  let p : SystemPromData :=
    { battery := match battery with
                 | some b => b.status
                 | none => "Not Installed"
      bios_hardware := bios_hardware.status
      fans := fans.status
      fan_redundancy := fans.redundancy
      memory := memory.status
      power_supplies := power_supplies.status
      ps_redundancy := power_supplies.redundancy
      processor := processor.status
      storage := storage.status
      temperature := temperature.status
      network := if network.status = "OK" || network.status = "Unknown" then "OK"
                 else network.status }
  { promData := p, value := SystemSensor.setStatus p }

/-- SystemSensor.generateMetrics (sensors.py lines 67-73) against the
hpilo_system_health gauge, modelled as the list of its emitted series. -/
def SystemSensor.generateMetrics (s : SystemSensor)
    (reg : List (SystemPromData × Nat)) : List (SystemPromData × Nat) :=
  reg ++ [(s.promData, s.value)]

/-- SystemSensor.updateMetrics (sensors.py lines 115-118): clear the gauge,
recompute the value with setStatus, re-register the single series. -/
def SystemSensor.updateMetrics (s : SystemSensor)
    (reg : List (SystemPromData × Nat)) :
    SystemSensor × List (SystemPromData × Nat) :=
  let cleared : List (SystemPromData × Nat) := []
  let updated : SystemSensor :=
    { s with value := SystemSensor.setStatus s.promData }
  (updated, updated.generateMetrics cleared)

/-! ## Aggregators (metrics.py) -/

/-- SensorMetrics.populate_sensors specialised to TemperatureMetrics
(metrics.py lines 37-54 with SENSOR_TYPE = TemperatureSensor): iterate the
raw records in order, construct each sensor, and append and emit it only
when it is installed. -/
def TemperatureMetrics.populate_sensors (data : List RawTemperature) :
    List TemperatureSensor :=
  data.foldl
    (fun acc r =>
      let mySensor := mkTemperatureSensor r
      if mySensor.installed then acc ++ [mySensor] else acc) []

/-- A raw temperature record in which every constructor keyword may be
absent; an absent key makes the keyword call raise TypeError. -/
structure RawTemperatureOpt where
  caution : Option (String × String)
  critical : Option (String × String)
  currentreading : Option (String × String)
  label : Option String
  location : Option String
  status : Option String
deriving Repr, DecidableEq

/-- The keyword call TemperatureSensor(**sensor) (metrics.py line 48):
it succeeds only when every required keyword is present. -/
def mkTemperatureSensorOpt (r : RawTemperatureOpt) : Option TemperatureSensor :=
  match r.caution, r.critical, r.currentreading, r.label, r.location, r.status with
  | some caution, some critical, some currentreading, some label,
      some location, some status =>
    some (mkTemperatureSensor
      { caution := caution, critical := critical,
        currentreading := currentreading, label := label,
        location := location, status := status })
  | _, _, _, _, _, _ => none

/-- SensorMetrics.populate_sensors over possibly malformed records
(metrics.py lines 47-54): construction happens before the try block, so a
TypeError from a record with a missing required keyword propagates out of the
whole loop; only ValueError is caught, and only around the installed check
and emission. -/
def TemperatureMetrics.populate_sensorsETail (data : List RawTemperatureOpt)
    (acc : List TemperatureSensor) : Except Unit (List TemperatureSensor) :=
  match data with
  | [] => Except.ok acc
  | r :: rest =>
    match mkTemperatureSensorOpt r with
    | none => Except.error ()
    | some mySensor =>
      TemperatureMetrics.populate_sensorsETail rest
        (if mySensor.installed then acc ++ [mySensor] else acc)

/-- The loop of metrics.py lines 47-54 over possibly malformed records,
starting from the empty sensors list. -/
def TemperatureMetrics.populate_sensorsE (data : List RawTemperatureOpt) :
    Except Unit (List TemperatureSensor) :=
  TemperatureMetrics.populate_sensorsETail data []

/-- ILOMetrics.get_metrics runs every populate_sensors in one loop
(collector.py lines 96-97), so an error from one category aborts the cycle:
no later category is populated and the reconciliation and firmware emission
never run.  Modelled for a cycle reduced to the temperature category followed
by the rest of the cycle output. -/
def ILOMetrics.get_metricsTempE (data : List RawTemperatureOpt) :
    Except Unit (List TemperatureSensor × String) := do
  let sensors ← TemperatureMetrics.populate_sensorsE data
  pure (sensors, "firmware_information emitted")

/-- The kinds of series StorageMetrics.populate_sensors registers. -/
inductive StorageSeriesKind
  | controller
  | enclosure
  | logicalDrive
  | disk
deriving Repr, DecidableEq

/-- One emitted storage series: its gauge kind, the status label it carries
and its value.  The controller series carries the overwritten status written
back by the healthy property. -/
structure StorageSeries where
  kind : StorageSeriesKind
  status : String
  value : Nat
deriving Repr, DecidableEq

/-- StorageMetrics.populate_sensors (metrics.py lines 220-232): every
controller, enclosure, logical drive and disk is emitted unconditionally;
no installed check is performed on this path. -/
def StorageMetrics.populate_sensors (controllers : List StorageControllerSensor) :
    List StorageSeries :=
  controllers.flatMap
    (fun c =>
      [⟨StorageSeriesKind.controller, c.resolvedStatus, c.value⟩]
      ++ c.enclosures.map
          (fun e => ⟨StorageSeriesKind.enclosure, e.status, e.value⟩)
      ++ c.logical_drives.flatMap
          (fun ld =>
            [⟨StorageSeriesKind.logicalDrive, ld.status, ld.value⟩]
            ++ ld.disks.map
                (fun d => ⟨StorageSeriesKind.disk, d.status, d.value⟩)))

/-! ## Health reconciliation (collector.py lines 90-120) -/

/-- The redo_system_check block of ILOMetrics.get_metrics (collector.py lines
107-120), guarded by the truthiness of the raw storage category (line 90):
multiply the controller values, force the storage label to OK on product 1
and to Degraded otherwise, then updateMetrics the system sensor.  The
registry argument is the current series list of the system health gauge. -/
def ILOMetrics.redoSystemCheck (storageNonEmpty : Bool)
    (controllers : List StorageControllerSensor) (systemSensor : SystemSensor)
    (reg : List (SystemPromData × Nat)) :
    SystemSensor × List (SystemPromData × Nat) :=
  if storageNonEmpty then
    let storageStatus :=
      controllers.foldl (fun acc controller => acc * controller.value) 1
    let updatedData :=
      if storageStatus = 1 then { systemSensor.promData with storage := "OK" }
      else { systemSensor.promData with storage := "Degraded" }
    SystemSensor.updateMetrics { systemSensor with promData := updatedData } reg
  else (systemSensor, reg)

/-! ## Concrete records used by the theorems below -/

/-- A healthy physical drive record. -/
def healthyDiskRecord : RawPhysicalDrive :=
  { capacity := "500 GB", drive_configuration := "Configured",
    encryption_status := "Not Encrypted", fw_version := "1.0",
    label := "Port 1I Box 1 Bay 1", location := "Port 1I Box 1 Bay 1",
    marketing_capacity := "500 GB", media_type := "HDD", model := "MODEL1",
    serial_number := "S1", status := "OK" }

/-- A non-OEM drive reporting the vendor false-positive authentication
status. -/
def authFailedDiskRecord : RawPhysicalDrive :=
  { healthyDiskRecord with
    serial_number := "S2",
    status := "Degraded (Not authenticated)" }

/-- A physical drive record carrying a missing status. -/
def notInstalledDiskRecord : RawPhysicalDrive :=
  { healthyDiskRecord with serial_number := "S3", status := "Not Installed" }

/-- A logical drive whose own status is Degraded while all of its disks are
individually healthy. -/
def degradedLogicalDriveRecord : RawLogicalDrive :=
  { capacity := "500 GB", encryption_status := "Not Encrypted",
    fault_tolerance := "RAID 1", label := "01", logical_drive_type := "Data",
    physical_drives := [healthyDiskRecord, authFailedDiskRecord],
    status := "Degraded" }

/-- A healthy logical drive owning one missing-status disk. -/
def missingDiskLogicalDriveRecord : RawLogicalDrive :=
  { degradedLogicalDriveRecord with
    label := "02",
    physical_drives := [notInstalledDiskRecord], status := "OK" }

/-- A controller whose own statuses are all good, with encryption not
enabled, owning only the degraded-but-suppressed logical drive. -/
def suppressedControllerRecord : RawStorageController :=
  { label := "Controller on System Board", status := "OK",
    controller_status := "OK", serial_number := "C1", model := "Smart Array",
    fw_version := "7.0", encryption_status := "Not Enabled",
    encryption_self_test_status := "N/A", encryption_csp_status := "N/A",
    drive_enclosures := none,
    logical_drives := some [degradedLogicalDriveRecord],
    cache_module_status := none, cache_module_serial_num := none,
    cache_module_memory := none }

/-- A good controller owning the logical drive with the missing-status
disk. -/
def missingDiskControllerRecord : RawStorageController :=
  { suppressedControllerRecord with
    serial_number := "C2",
    logical_drives := some [missingDiskLogicalDriveRecord] }

/-- A controller degraded by its controller_status. -/
def degradedControllerRecord : RawStorageController :=
  { suppressedControllerRecord with
    serial_number := "C3",
    controller_status := "Failed", logical_drives := none }

/-- A fully healthy controller with no children. -/
def healthyControllerRecord : RawStorageController :=
  { suppressedControllerRecord with
    serial_number := "C4",
    logical_drives := none }

/-- A memory record whose status is the contested Present, Unused string. -/
def presentUnusedMemory : MemorySensor :=
  mkMemorySensor "Processor 1" "2400 MHz" "Yes" "1.20v" ⟨"P00000-001"⟩ "2"
    "16384 MB" "DIMM 1" "Present, Unused" "Synchronous" "DDR4" none

/-- The raw Temperature record of end-to-end scenario A. -/
def scenarioARecord : RawTemperature :=
  { caution := ("-", "C"), critical := ("70", "C"),
    currentreading := ("45", "C"), label := "01-Inlet",
    location := "Ambient", status := "OK" }

/-- A Temperature record with a configured caution threshold of exactly 0. -/
def zeroCautionRecord : RawTemperature :=
  { caution := ("0", "C"), critical := ("70", "C"),
    currentreading := ("45", "C"), label := "02-CPU", location := "CPU",
    status := "OK" }

/-- An ordinary installed Temperature record. -/
def okTempRecord : RawTemperature :=
  { caution := ("42", "C"), critical := ("46", "C"),
    currentreading := ("21", "C"), label := "03-Board", location := "System",
    status := "OK" }

/-- A system sensor built from an all-healthy health_at_a_glance record
except for a storage sub-status of Degraded. -/
def degradedStorageSystem : SystemSensor :=
  mkSystemSensor ⟨"OK"⟩ ⟨"OK", "Redundant"⟩ ⟨"OK"⟩ ⟨"OK"⟩ ⟨"OK", "Redundant"⟩
    ⟨"OK"⟩ ⟨"Degraded"⟩ ⟨"OK"⟩ none

/-- A system sensor whose eight named sub-statuses are all healthy while the
battery status is Failed. -/
def batteryFailedSystem : SystemSensor :=
  mkSystemSensor ⟨"OK"⟩ ⟨"OK", "Redundant"⟩ ⟨"OK"⟩ ⟨"OK"⟩ ⟨"OK", "Redundant"⟩
    ⟨"OK"⟩ ⟨"OK"⟩ ⟨"OK"⟩ (some ⟨"Failed"⟩)

/-- A raw temperature record with every required keyword present. -/
def goodTempOptRecord : RawTemperatureOpt :=
  { caution := some ("40", "C"), critical := some ("70", "C"),
    currentreading := some ("30", "C"), label := some "03-Board",
    location := some "System", status := some "OK" }

/-- A present-but-malformed raw temperature record: the required status
keyword is absent. -/
def malformedTempOptRecord : RawTemperatureOpt :=
  { goodTempOptRecord with status := none }

/-! ## Helper lemmas -/

/-- The multiply-by-zero fold of SystemSensor.setStatus collapses to an
all-statuses check. -/
theorem foldl_degrade_eq_ite (l : List String) (v : Nat) :
    l.foldl
      (fun v status =>
        if !(SystemSensor.healthy_states.contains status)
            && !(Sensor.missingStatus.contains status) then v * 0 else v) v
    = if l.all (fun s => SystemSensor.healthy_states.contains s
        || Sensor.missingStatus.contains s) then v else 0 := by
  induction l generalizing v with
  | nil => simp
  | cons s l ih =>
    simp only [List.foldl_cons, List.all_cons]
    rcases Bool.eq_false_or_eq_true (SystemSensor.healthy_states.contains s
        || Sensor.missingStatus.contains s) with hgood | hgood
    · have hcond : (!(SystemSensor.healthy_states.contains s)
          && !(Sensor.missingStatus.contains s)) = false := by
        rw [← Bool.not_or, hgood, Bool.not_true]
      simp only [hcond, hgood, Bool.true_and, Bool.false_eq_true, if_false]
      exact ih v
    · have hcond : (!(SystemSensor.healthy_states.contains s)
          && !(Sensor.missingStatus.contains s)) = true := by
        rw [← Bool.not_or, hgood, Bool.not_false]
      simp only [hcond, hgood, Bool.false_and, eq_self_iff_true, if_true,
        Bool.false_eq_true, if_false]
      rw [Nat.mul_zero v, ih 0]
      exact ite_self 0

/-- SystemSensor.setStatus answers 1 exactly when every stored promData value
is in the healthy or missing vocabulary, and 0 otherwise. -/
theorem SystemSensor.setStatus_eq_ite (p : SystemPromData) :
    SystemSensor.setStatus p
      = if p.values.all (fun s => SystemSensor.healthy_states.contains s
          || Sensor.missingStatus.contains s) then 1 else 0 :=
  foldl_degrade_eq_ite p.values 1

/-! ## Claim theorems -/

/-- Claim C2: a LogicalDrive sensor is healthy iff its own status is in the
healthy vocabulary OR every child disk is individually healthy, where a disk
with the vendor false-positive status Degraded (Not authenticated) counts as
healthy; hence the Degraded drive with individually healthy disks has
healthy = true and value 1, and a StorageController containing only that
drive keeps value 1. -/
theorem logicalDrive_health_or_all_disks :
    (∀ ld : LogicalDriveSensor,
      ld.healthy
        = (Sensor.goodStatus.contains ld.status
            || ld.disks.all (fun d => d.healthy))) ∧
    DiskSensor.goodStatus.contains "Degraded (Not authenticated)" = true ∧
    ((mkLogicalDriveSensor degradedLogicalDriveRecord).disks.all
        (fun d => d.healthy)) = true ∧
    (mkLogicalDriveSensor degradedLogicalDriveRecord).status = "Degraded" ∧
    Sensor.goodStatus.contains "Degraded" = false ∧
    (mkLogicalDriveSensor degradedLogicalDriveRecord).healthy = true ∧
    (mkLogicalDriveSensor degradedLogicalDriveRecord).value = 1 ∧
    (mkStorageControllerSensor suppressedControllerRecord).logical_drives
      = [mkLogicalDriveSensor degradedLogicalDriveRecord] ∧
    (mkStorageControllerSensor suppressedControllerRecord).value = 1 := by
  refine ⟨?_, rfl, rfl, rfl, rfl, rfl, rfl, rfl, rfl⟩
  intro ld
  unfold LogicalDriveSensor.healthy
  rcases Bool.eq_false_or_eq_true (Sensor.goodStatus.contains ld.status)
    with h | h <;> simp [h]

/-- Claim C10: a LogicalDrive sensor constructed with a status outside the
healthy vocabulary and an empty physical_drives list is healthy with value 1,
since the all-child-disks check passes vacuously. -/
theorem logicalDrive_no_disks_vacuously_healthy
    (capacity encryption_status fault_tolerance label logical_drive_type
      status : String)
    (h : Sensor.goodStatus.contains status = false) :
    (mkLogicalDriveSensor
        ⟨capacity, encryption_status, fault_tolerance, label,
          logical_drive_type, [], status⟩).healthy = true ∧
    (mkLogicalDriveSensor
        ⟨capacity, encryption_status, fault_tolerance, label,
          logical_drive_type, [], status⟩).value = 1 := by
  constructor
  · simp [mkLogicalDriveSensor, LogicalDriveSensor.healthy, h]
  · simp [mkLogicalDriveSensor, LogicalDriveSensor.value,
      LogicalDriveSensor.healthy, h]

/-- Witness for C10 at a concrete degraded status. -/
theorem logicalDrive_no_disks_vacuously_healthy_witness :
    Sensor.goodStatus.contains "Failed" = false ∧
    ((mkLogicalDriveSensor
        ⟨"10 GB", "Not Encrypted", "RAID 1", "01", "Data", [],
          "Failed"⟩).healthy = true ∧
     (mkLogicalDriveSensor
        ⟨"10 GB", "Not Encrypted", "RAID 1", "01", "Data", [],
          "Failed"⟩).value = 1) :=
  ⟨rfl, logicalDrive_no_disks_vacuously_healthy "10 GB" "Not Encrypted"
    "RAID 1" "01" "Data" "Failed" rfl⟩

/-- Counterexample to claim C8: a Memory sensor (a non-storage kind) whose
status is Present, Unused is healthy with value 1, not Degraded with
value 0, because the baseline Sensor.goodStatus already contains
Present, Unused. -/
theorem memory_present_unused_healthy_cex :
    presentUnusedMemory.status = "Present, Unused" ∧
    presentUnusedMemory.healthy = true ∧
    presentUnusedMemory.value = 1 ∧
    presentUnusedMemory.value ≠ 0 := by
  refine ⟨rfl, rfl, rfl, by decide⟩

/-- Claim C8 as amended: the baseline healthy vocabulary is
OK, Good, In Use and Present, Unused for every sensor kind that does not
override it, so a Memory sensor has value 1 exactly when its status is in
that three-element vocabulary. -/
theorem baseline_vocabulary_includes_present_unused :
    Sensor.goodStatus = ["OK", "Good, In Use", "Present, Unused"] ∧
    ∀ cpu frequency hp_smart_memory minimum_voltage part ranks size socket
        status technology mem_type serial,
      (mkMemorySensor cpu frequency hp_smart_memory minimum_voltage part
          ranks size socket status technology mem_type serial).value = 1
        ↔ Sensor.goodStatus.contains status = true := by
  refine ⟨rfl, ?_⟩
  intro cpu frequency hp_smart_memory minimum_voltage part ranks size socket
    status technology mem_type serial
  rcases Bool.eq_false_or_eq_true (Sensor.goodStatus.contains status)
    with h | h <;>
    simp [mkMemorySensor, MemorySensor.value, MemorySensor.healthy,
      Sensor.healthyStatus, h]

/-- Counterexample to claim C7: a Temperature record whose caution threshold
parses to exactly 0 satisfies threshold greater or equal 0, yet the caution
series is not emitted, because the code tests threshold strictly greater
than 0. -/
theorem temperature_zero_caution_not_emitted_cex :
    (mkTemperatureSensor zeroCautionRecord).caution = 0 ∧
    ((0 : Int) ≥ 0) ∧
    (mkTemperatureSensor zeroCautionRecord).generateMetrics.caution
      = none := by
  refine ⟨by decide, by decide, by decide⟩

/-- Claim C7 as amended: thresholds parse with int() else the sentinel -1;
the detail series always carries the reading; each threshold series is
emitted iff its threshold is strictly positive; and scenario A yields detail
value 45 with caution -1, a critical series of 70 and no caution series. -/
theorem temperature_series_iff_threshold_positive :
    (∀ r : RawTemperature,
      (mkTemperatureSensor r).caution = (pyInt? r.caution.1).getD (-1) ∧
      (mkTemperatureSensor r).critical = (pyInt? r.critical.1).getD (-1) ∧
      (mkTemperatureSensor r).generateMetrics.detail
        = (mkTemperatureSensor r, pyInt? (mkTemperatureSensor r).value) ∧
      ((mkTemperatureSensor r).generateMetrics.caution.isSome
        ↔ (mkTemperatureSensor r).caution > 0) ∧
      ((mkTemperatureSensor r).generateMetrics.critical.isSome
        ↔ (mkTemperatureSensor r).critical > 0)) ∧
    (mkTemperatureSensor scenarioARecord).generateMetrics.detail.2
      = some 45 ∧
    (mkTemperatureSensor scenarioARecord).caution = -1 ∧
    (mkTemperatureSensor scenarioARecord).generateMetrics.critical
      = some 70 ∧
    (mkTemperatureSensor scenarioARecord).generateMetrics.caution = none := by
  refine ⟨?_, by decide, by decide, by decide, by decide⟩
  intro r
  refine ⟨rfl, rfl, rfl, ?_, ?_⟩
  · unfold TemperatureSensor.generateMetrics
    by_cases h : (mkTemperatureSensor r).caution > 0 <;> simp [h]
  · unfold TemperatureSensor.generateMetrics
    by_cases h : (mkTemperatureSensor r).critical > 0 <;> simp [h]

/-- Counterexample to claim C3: a system whose eight named sub-statuses are
all healthy but whose battery status is Failed gets value 0, so the eight
sub-statuses alone do not determine the value. -/
theorem system_value_battery_cex :
    ([batteryFailedSystem.promData.bios_hardware,
      batteryFailedSystem.promData.fans,
      batteryFailedSystem.promData.memory,
      batteryFailedSystem.promData.network,
      batteryFailedSystem.promData.power_supplies,
      batteryFailedSystem.promData.processor,
      batteryFailedSystem.promData.storage,
      batteryFailedSystem.promData.temperature].all
        (fun s => SystemSensor.healthy_states.contains s
          || Sensor.missingStatus.contains s)) = true ∧
    batteryFailedSystem.promData.battery = "Failed" ∧
    batteryFailedSystem.value = 0 := by
  refine ⟨by decide, rfl, by decide⟩

/-- Claim C3 as amended: the System value is 1 iff every one of the eleven
stored promData values (the eight sub-statuses plus battery, fan_redundancy
and ps_redundancy, with network Unknown normalized to OK at construction) is
in the healthy-or-missing vocabulary, and any stored value outside it forces
value 0. -/
theorem system_value_iff_all_eleven_statuses :
    (∀ p : SystemPromData,
      SystemSensor.setStatus p
        = if p.values.all (fun s => SystemSensor.healthy_states.contains s
            || Sensor.missingStatus.contains s) then 1 else 0) ∧
    (∀ p : SystemPromData, ∀ s ∈ p.values,
      (SystemSensor.healthy_states.contains s
        || Sensor.missingStatus.contains s) = false →
      SystemSensor.setStatus p = 0) := by
  refine ⟨SystemSensor.setStatus_eq_ite, ?_⟩
  intro p s hs hbad
  rw [SystemSensor.setStatus_eq_ite]
  rcases Bool.eq_false_or_eq_true
      (p.values.all (fun s => SystemSensor.healthy_states.contains s
        || Sensor.missingStatus.contains s)) with hall | hall
  · have hmem := List.all_eq_true.mp hall s hs
    simp only [hbad, Bool.false_eq_true] at hmem
  · simp only [hall, Bool.false_eq_true, if_false]

/-- Witness for C3 as amended at the battery counterexample input. -/
theorem system_value_iff_all_eleven_statuses_witness :
    ("Failed" ∈ batteryFailedSystem.promData.values) ∧
    SystemSensor.setStatus batteryFailedSystem.promData = 0 :=
  ⟨by decide,
   system_value_iff_all_eleven_statuses.2 batteryFailedSystem.promData
     "Failed" (by decide) (by decide)⟩

/-- Claim C1: with a non-empty storage category and at least one controller
sensor built, the reconciler multiplies the controller values (each 0 or 1),
forces the storage label to OK on product 1 and Degraded otherwise,
recomputes the System value from the updated labels with setStatus, and
re-registers the System gauge as exactly the one new series, superseding any
earlier emission; with two controllers of values 1 and 0 the label becomes
Degraded. -/
theorem reconciler_multiplies_and_supersedes
    (controllers : List StorageControllerSensor) (sys : SystemSensor)
    (reg : List (SystemPromData × Nat)) (hne : controllers ≠ []) :
    (∀ c ∈ controllers, c.value = 0 ∨ c.value = 1) ∧
    ((ILOMetrics.redoSystemCheck true controllers sys reg).1.promData.storage
      = if controllers.foldl (fun acc c => acc * c.value) 1 = 1
        then "OK" else "Degraded") ∧
    ((ILOMetrics.redoSystemCheck true controllers sys reg).1.value
      = SystemSensor.setStatus
          (ILOMetrics.redoSystemCheck true controllers sys reg).1.promData) ∧
    ((ILOMetrics.redoSystemCheck true controllers sys reg).2
      = [((ILOMetrics.redoSystemCheck true controllers sys reg).1.promData,
          (ILOMetrics.redoSystemCheck true controllers sys reg).1.value)]) ∧
    (∀ c1 c2 : StorageControllerSensor, c1.value = 1 → c2.value = 0 →
      (ILOMetrics.redoSystemCheck true [c1, c2] sys reg).1.promData.storage
        = "Degraded") := by
  refine ⟨?_, ?_, ?_, ?_, ?_⟩
  · intro c _
    unfold StorageControllerSensor.value
    by_cases h : c.healthy <;> simp [h]
  · by_cases h : controllers.foldl (fun acc c => acc * c.value) 1 = 1 <;>
      simp [ILOMetrics.redoSystemCheck, SystemSensor.updateMetrics,
        SystemSensor.generateMetrics, h]
  · by_cases h : controllers.foldl (fun acc c => acc * c.value) 1 = 1 <;>
      simp [ILOMetrics.redoSystemCheck, SystemSensor.updateMetrics,
        SystemSensor.generateMetrics, h]
  · by_cases h : controllers.foldl (fun acc c => acc * c.value) 1 = 1 <;>
      simp [ILOMetrics.redoSystemCheck, SystemSensor.updateMetrics,
        SystemSensor.generateMetrics, h]
  · intro c1 c2 h1 h2
    simp [ILOMetrics.redoSystemCheck, SystemSensor.updateMetrics,
      SystemSensor.generateMetrics, h1, h2]

/-- Witness for C1 at two concrete controllers of values 1 and 0. -/
theorem reconciler_multiplies_and_supersedes_witness :
    ([mkStorageControllerSensor healthyControllerRecord,
      mkStorageControllerSensor degradedControllerRecord] ≠ []) ∧
    (mkStorageControllerSensor healthyControllerRecord).value = 1 ∧
    (mkStorageControllerSensor degradedControllerRecord).value = 0 ∧
    (ILOMetrics.redoSystemCheck true
        [mkStorageControllerSensor healthyControllerRecord,
         mkStorageControllerSensor degradedControllerRecord]
        degradedStorageSystem []).1.promData.storage = "Degraded" := by
  have h := reconciler_multiplies_and_supersedes
    [mkStorageControllerSensor healthyControllerRecord,
     mkStorageControllerSensor degradedControllerRecord]
    degradedStorageSystem [] (by decide)
  refine ⟨by decide, by decide, by decide, ?_⟩
  rw [h.2.1]
  decide

/-- Counterexample to claim C5: with the storage category non-empty but no
controller sensors built, the reconciler does not leave the System storage
label unchanged; the empty product is 1 and the label is overwritten with
OK. -/
theorem reconciler_empty_overwrites_cex :
    degradedStorageSystem.promData.storage = "Degraded" ∧
    (ILOMetrics.redoSystemCheck true [] degradedStorageSystem
        []).1.promData.storage = "OK" ∧
    (ILOMetrics.redoSystemCheck true [] degradedStorageSystem
        []).1.promData.storage ≠ degradedStorageSystem.promData.storage := by
  refine ⟨rfl, by decide, by decide⟩

/-- Claim C5 as amended: when the storage category is non-empty but the
controller sensor list is empty, the product over no controllers is 1, so
the reconciler overwrites the System storage label with OK (it does not
leave the label unchanged). -/
theorem reconciler_empty_controllers_forces_ok (sys : SystemSensor)
    (reg : List (SystemPromData × Nat)) :
    (ILOMetrics.redoSystemCheck true [] sys reg).1.promData.storage
      = "OK" := by
  simp [ILOMetrics.redoSystemCheck, SystemSensor.updateMetrics,
    SystemSensor.generateMetrics]

/-- Claim C9: the reconciler is idempotent; running it again on its own
output (sensor and registry) reproduces that output exactly. -/
theorem reconciler_idempotent (controllers : List StorageControllerSensor)
    (sys : SystemSensor) (reg : List (SystemPromData × Nat)) :
    ILOMetrics.redoSystemCheck true controllers
        (ILOMetrics.redoSystemCheck true controllers sys reg).1
        (ILOMetrics.redoSystemCheck true controllers sys reg).2
      = ILOMetrics.redoSystemCheck true controllers sys reg := by
  by_cases h : controllers.foldl (fun acc c => acc * c.value) 1 = 1 <;>
    simp [ILOMetrics.redoSystemCheck, SystemSensor.updateMetrics,
      SystemSensor.generateMetrics, h]

/-- The installed-filtering loop of SensorMetrics.populate_sensors is the
filter of the constructed sensors by the installed property. -/
theorem tempPopulate_foldl (data : List RawTemperature)
    (acc : List TemperatureSensor) :
    data.foldl
      (fun acc r =>
        let mySensor := mkTemperatureSensor r
        if mySensor.installed then acc ++ [mySensor] else acc) acc
      = acc ++ (data.map mkTemperatureSensor).filter
          (fun t => t.installed) := by
  induction data generalizing acc with
  | nil => simp
  | cons r data ih =>
    simp only [List.foldl_cons, List.map_cons, List.filter_cons]
    by_cases h : (mkTemperatureSensor r).installed <;>
      simp [h, ih, List.append_assoc]

/-- TemperatureMetrics.populate_sensors in filter form. -/
theorem tempPopulate_eq_filter (data : List RawTemperature) :
    TemperatureMetrics.populate_sensors data
      = (data.map mkTemperatureSensor).filter (fun t => t.installed) :=
  tempPopulate_foldl data []

/-- Counterexample to claim C4: a disk with the missing status Not Installed
inside the storage hierarchy has installed = false yet still gets an emitted
series, because StorageMetrics.populate_sensors never checks installed. -/
theorem storage_missing_disk_emitted_cex :
    Sensor.installedStatus "Not Installed" = false ∧
    (⟨StorageSeriesKind.disk, "Not Installed", 0⟩ : StorageSeries)
      ∈ StorageMetrics.populate_sensors
          [mkStorageControllerSensor missingDiskControllerRecord] := by
  refine ⟨rfl, by decide⟩

/-- Claim C4 as amended: a missing status always forces installed = false,
and the categories aggregated through the generic installed-filtering loop
(temperature shown) exclude such sensors from emission; but the storage
hierarchy emits every owned sensor unconditionally, so a missing-status disk
still receives a series. -/
theorem missing_excluded_generic_not_storage :
    (∀ status, Sensor.missingStatus.contains status = true →
      Sensor.installedStatus status = false) ∧
    (∀ data : List RawTemperature,
      ∀ t ∈ TemperatureMetrics.populate_sensors data,
        t.installed = true) ∧
    (∀ controllers : List StorageControllerSensor,
      ∀ c ∈ controllers, ∀ ld ∈ c.logical_drives, ∀ d ∈ ld.disks,
        (⟨StorageSeriesKind.disk, d.status, d.value⟩ : StorageSeries)
          ∈ StorageMetrics.populate_sensors controllers) := by
  refine ⟨?_, ?_, ?_⟩
  · intro status h
    unfold Sensor.installedStatus
    rw [h]
    rfl
  · intro data t ht
    rw [tempPopulate_eq_filter] at ht
    exact (List.mem_filter.mp ht).2
  · intro controllers c hc ld hld d hd
    unfold StorageMetrics.populate_sensors
    rw [List.mem_flatMap]
    refine ⟨c, hc, ?_⟩
    rw [List.mem_append]
    right
    rw [List.mem_flatMap]
    refine ⟨ld, hld, ?_⟩
    rw [List.mem_append]
    right
    rw [List.mem_map]
    exact ⟨d, hd, rfl⟩

/-- Witness for C4 as amended at concrete inputs: a missing status, one
installed temperature record, and the controller owning a missing-status
disk. -/
theorem missing_excluded_generic_not_storage_witness :
    Sensor.installedStatus "Not Present" = false ∧
    (mkTemperatureSensor okTempRecord).installed = true ∧
    (⟨StorageSeriesKind.disk,
        (mkDiskSensor notInstalledDiskRecord "02").status,
        (mkDiskSensor notInstalledDiskRecord "02").value⟩ : StorageSeries)
      ∈ StorageMetrics.populate_sensors
          [mkStorageControllerSensor missingDiskControllerRecord] :=
  ⟨missing_excluded_generic_not_storage.1 "Not Present" (by decide),
   missing_excluded_generic_not_storage.2.1 [okTempRecord]
     (mkTemperatureSensor okTempRecord) (by decide),
   missing_excluded_generic_not_storage.2.2
     [mkStorageControllerSensor missingDiskControllerRecord]
     (mkStorageControllerSensor missingDiskControllerRecord) (by decide)
     (mkLogicalDriveSensor missingDiskLogicalDriveRecord) (by decide)
     (mkDiskSensor notInstalledDiskRecord "02") (by decide)⟩

/-- One malformed record anywhere in the category data makes the whole
populate loop abort with the uncaught construction error. -/
theorem populate_tail_error (data : List RawTemperatureOpt) :
    ∀ acc r, r ∈ data → mkTemperatureSensorOpt r = none →
      TemperatureMetrics.populate_sensorsETail data acc
        = Except.error () := by
  induction data with
  | nil =>
    intro acc r hr
    cases hr
  | cons a rest ih =>
    intro acc r hr hm
    unfold TemperatureMetrics.populate_sensorsETail
    cases ha : mkTemperatureSensorOpt a with
    | none => rfl
    | some s =>
      rcases List.mem_cons.mp hr with h | h
      · rw [h] at hm
        rw [ha] at hm
        exact Option.noConfusion hm
      · exact ih _ r h hm

/-- Counterexample to claim C6: with one malformed record between two good
ones, the whole category aborts with an error: the failure is not scoped to
the one record, no sensor of the category survives, and the rest of the
cycle (modelled by the firmware emission after the loop) never runs. -/
theorem malformed_record_aborts_all_cex :
    mkTemperatureSensorOpt malformedTempOptRecord = none ∧
    TemperatureMetrics.populate_sensorsE
        [goodTempOptRecord, malformedTempOptRecord, goodTempOptRecord]
      = Except.error () ∧
    ILOMetrics.get_metricsTempE
        [goodTempOptRecord, malformedTempOptRecord, goodTempOptRecord]
      = Except.error () := by
  refine ⟨rfl, by rfl, by rfl⟩

/-- Claim C6 as amended: a present-but-malformed record (a required keyword
absent) raises an uncaught construction error, because construction happens
before the try block that only catches ValueError; the error aborts the
whole category loop and the remainder of the cycle, instead of being scoped
to the one record. -/
theorem malformed_record_aborts_cycle (data : List RawTemperatureOpt)
    (r : RawTemperatureOpt) (hr : r ∈ data)
    (hm : mkTemperatureSensorOpt r = none) :
    TemperatureMetrics.populate_sensorsE data = Except.error () ∧
    ILOMetrics.get_metricsTempE data = Except.error () := by
  have h1 : TemperatureMetrics.populate_sensorsE data = Except.error () :=
    populate_tail_error data [] r hr hm
  refine ⟨h1, ?_⟩
  unfold ILOMetrics.get_metricsTempE
  rw [h1]
  rfl

/-- Witness for C6 as amended at a concrete two-record list. -/
theorem malformed_record_aborts_cycle_witness :
    (malformedTempOptRecord ∈ [goodTempOptRecord, malformedTempOptRecord]) ∧
    (TemperatureMetrics.populate_sensorsE
        [goodTempOptRecord, malformedTempOptRecord] = Except.error () ∧
     ILOMetrics.get_metricsTempE
        [goodTempOptRecord, malformedTempOptRecord] = Except.error ()) :=
  ⟨by decide,
   malformed_record_aborts_cycle [goodTempOptRecord, malformedTempOptRecord]
     malformedTempOptRecord (by decide) rfl⟩
